import Mathlib

set_option maxHeartbeats 1000000
set_option linter.unusedVariables false

/-- JavaScript runtime values, as far as the library observes them:
every branch in `result.ts` tests either truthiness (`if (x)`) or
comparison with `null` (loose `==` or strict `===`). -/
inductive JSVal where
  | vnull
  | vundef
  | vbool (b : Bool)
  | vnum (n : Int)
  | vstr (s : String)
  | vobj (id : Nat)
deriving DecidableEq, Repr

/-- JS truthiness of a value, the test made by `if (x)`. -/
def truthy : JSVal → Bool
  | .vnull => false
  | .vundef => false
  | .vbool b => b
  | .vnum n => n != 0
  | .vstr s => s != ""
  | .vobj _ => true

/-- Loose comparison with null (`x == null` / `x != null`): holds for
both `null` and `undefined`. -/
def isNullish : JSVal → Bool
  | .vnull => true
  | .vundef => true
  | _ => false

/-- Strict comparison with null (`x === null` / `x !== null`). -/
def isNullStrict : JSVal → Bool
  | .vnull => true
  | _ => false

/-- Default diagnostic message of the `Panic` error class. -/
def defaultPanicMessage : String :=
  "this is caused by calling an .unwrap() on an Err() value. delete that unwrap() and handle expected error with match()"

/-- The Failure Signal: `class Panic extends Error`, carrying only a message. -/
structure Panic where
  message : String
deriving DecidableEq, Repr

/-- Panic construction, `super(msg || default)`: an empty (falsy) message
falls back to the default diagnostic string. -/
def Panic.make (msg : String) : Panic :=
  { message := if msg = "" then defaultPanicMessage else msg }

/-- Message of the Panic raised by `#checkConsumed` on a consumed container. -/
def consumedMessage : String := "this is caused by consuming an already consumed Result"

/-- State of a Result container: the private fields `#val`, `#err`,
`#consumed` of `result.ts`. Slots hold `vnull` when unpopulated, exactly
as the fields are initialized to `null`. -/
structure Result where
  val : JSVal
  err : JSVal
  consumed : Bool
deriving DecidableEq, Repr

/-- The protected constructor `constructor(val?, err?)`: each slot starts
null and is assigned only when the corresponding argument is truthy. -/
def Result.construct (v e : JSVal) : Result :=
  { val := if truthy v then v else JSVal.vnull,
    err := if truthy e then e else JSVal.vnull,
    consumed := false }

/-- The `Ok` factory: `super(val)`, leaving the error argument undefined. -/
def Ok (v : JSVal) : Result := Result.construct v JSVal.vundef

/-- The `Err` factory: `super(undefined, err)`. -/
def Err (e : JSVal) : Result := Result.construct JSVal.vundef e

/-- Private `#checkConsumed()`: throws a Panic when the container was
already consumed. -/
def Result.checkConsumed (r : Result) : Except Panic Unit :=
  if r.consumed then .error (Panic.make consumedMessage) else .ok ()

/-- Method `match(okArm?, errArm?)`: if `okArm` is supplied and `#val` is
truthy, return `okArm(#val)`; else if `errArm` is supplied, return
`errArm(#err)` (the slot content, null when absent); else return
undefined. It performs no consumed check and no mutation. -/
def Result.matchArms (r : Result) (okArm errArm : Option (JSVal → JSVal)) : JSVal :=
  match okArm, truthy r.val with
  | some f, true => f r.val
  | _, _ =>
    match errArm with
    | some g => g r.err
    | none => JSVal.vundef

/-- Method `expect(msg)`: checks consumption, flips `#consumed` to true,
returns `#val` when loosely non-null, otherwise throws `new Panic(msg)`.
The pair carries the post-state of the receiver, mutated even on throw. -/
def Result.expect (r : Result) (msg : String) : Result × Except Panic JSVal :=
  match r.checkConsumed with
  | .error p => (r, .error p)
  | .ok _ =>
    let r' : Result := { r with consumed := true }
    if !(isNullish r'.val) then (r', .ok r'.val)
    else (r', .error (Panic.make msg))

/-- Method `unwrap()`: literally `this.expect('')`. -/
def Result.unwrap (r : Result) : Result × Except Panic JSVal :=
  r.expect ""

/-- Method `isOk()`: after the consumed check, returns `#err !== null`. -/
def Result.isOk (r : Result) : Except Panic Bool :=
  match r.checkConsumed with
  | .error p => .error p
  | .ok _ => .ok (!(isNullStrict r.err))

/-- Method `isErr()`: after the consumed check, returns `#err == null`. -/
def Result.isErr (r : Result) : Except Panic Bool :=
  match r.checkConsumed with
  | .error p => .error p
  | .ok _ => .ok (isNullish r.err)

/-- Method `isOkAnd(fn)`: `#val != null && fn(#val)`. -/
def Result.isOkAnd (r : Result) (fn : JSVal → Bool) : Except Panic Bool :=
  match r.checkConsumed with
  | .error p => .error p
  | .ok _ => .ok (!(isNullish r.val) && fn r.val)

/-- Method `isErrAnd(fn)`: `#err != null && fn(#err)`. -/
def Result.isErrAnd (r : Result) (fn : JSVal → Bool) : Except Panic Bool :=
  match r.checkConsumed with
  | .error p => .error p
  | .ok _ => .ok (!(isNullish r.err) && fn r.err)

/-- Method `map(fn)`: when `#val != null`, builds a fresh container through
the `Ok` factory around `fn(#val)`; otherwise returns the receiver itself. -/
def Result.map (r : Result) (fn : JSVal → JSVal) : Except Panic Result :=
  match r.checkConsumed with
  | .error p => .error p
  | .ok _ =>
    if !(isNullish r.val) then .ok (Ok (fn r.val))
    else .ok r

/-- Method `mapOr(defaultVal, fn)`: after the consumed check, branches on
`this.isErr()` (which itself re-checks consumption), returning the default
when it is true and `fn(#val)` otherwise. -/
def Result.mapOr (r : Result) (defaultVal : JSVal) (fn : JSVal → JSVal) : Except Panic JSVal :=
  match r.checkConsumed with
  | .error p => .error p
  | .ok _ =>
    match r.isErr with
    | .error p => .error p
    | .ok b => if b then .ok defaultVal else .ok (fn r.val)

/-- Method `mapErr(fn)`: when `#err != null`, builds a fresh container
through the `Err` factory around `fn(#err)`; otherwise returns the
receiver itself. -/
def Result.mapErr (r : Result) (fn : JSVal → JSVal) : Except Panic Result :=
  match r.checkConsumed with
  | .error p => .error p
  | .ok _ =>
    if !(isNullish r.err) then .ok (Err (fn r.err))
    else .ok r

/-- Method `inspect(fn)`: calls `fn(#val)` for side effect only when
`#val != null`, then returns the receiver. The list records the arguments
of the invocations of `fn`, in order. -/
def Result.inspect (r : Result) (fn : JSVal → JSVal) : Except Panic (Result × List JSVal) :=
  match r.checkConsumed with
  | .error p => .error p
  | .ok _ =>
    if !(isNullish r.val) then .ok (r, [r.val])
    else .ok (r, [])

/-- Method `inspectErr(fn)`: calls `fn(#err)` for side effect only when
`#err != null`, then returns the receiver. -/
def Result.inspectErr (r : Result) (fn : JSVal → JSVal) : Except Panic (Result × List JSVal) :=
  match r.checkConsumed with
  | .error p => .error p
  | .ok _ =>
    if !(isNullish r.err) then .ok (r, [r.err])
    else .ok (r, [])

/-- Method `ok()`: checks consumption, flips `#consumed`, returns `#val`
(null when the success slot is unpopulated). -/
def Result.okOp (r : Result) : Result × Except Panic JSVal :=
  match r.checkConsumed with
  | .error p => (r, .error p)
  | .ok _ => ({ r with consumed := true }, .ok r.val)

/-- Method `err()`: checks consumption, flips `#consumed`, returns `#err`. -/
def Result.errOp (r : Result) : Result × Except Panic JSVal :=
  match r.checkConsumed with
  | .error p => (r, .error p)
  | .ok _ => ({ r with consumed := true }, .ok r.err)

/-- One invocation of a public method of the container, with its arguments. -/
inductive Op where
  | opMatch (okArm errArm : Option (JSVal → JSVal))
  | unwrap
  | isOk
  | isOkAnd (fn : JSVal → Bool)
  | isErr
  | isErrAnd (fn : JSVal → Bool)
  | expect (msg : String)
  | map (fn : JSVal → JSVal)
  | mapOr (defaultVal : JSVal) (fn : JSVal → JSVal)
  | mapErr (fn : JSVal → JSVal)
  | inspect (fn : JSVal → JSVal)
  | inspectErr (fn : JSVal → JSVal)
  | ok
  | err

/-- Whether an operation is the `match` method. -/
def Op.isMatch : Op → Bool
  | .opMatch _ _ => true
  | _ => false

/-- Whether an operation is one of the consuming methods
(`expect`, `unwrap`, `ok`, `err`). -/
def Op.consuming : Op → Bool
  | .unwrap => true
  | .expect _ => true
  | .ok => true
  | .err => true
  | _ => false

/-- Observable outcome of one method call: a returned value, a returned
container, or a raised Panic. -/
inductive Outcome where
  | value (v : JSVal)
  | container (c : Result)
  | raised (p : Panic)
deriving DecidableEq, Repr

/-- Whether an outcome is a raised Panic. -/
def Outcome.isRaised : Outcome → Bool
  | .raised _ => true
  | _ => false

/-- Lift a mutating method result to a post-state and an outcome. -/
def mutOutcome (p : Result × Except Panic JSVal) : Result × Outcome :=
  (p.1, match p.2 with
        | .ok v => .value v
        | .error q => .raised q)

/-- Lift a non-mutating value-returning method result. -/
def valOutcome (r : Result) (x : Except Panic JSVal) : Result × Outcome :=
  match x with
  | .ok v => (r, .value v)
  | .error q => (r, .raised q)

/-- Lift a non-mutating boolean-returning method result. -/
def boolOutcome (r : Result) (x : Except Panic Bool) : Result × Outcome :=
  match x with
  | .ok b => (r, .value (.vbool b))
  | .error q => (r, .raised q)

/-- Lift a non-mutating container-returning method result. -/
def resOutcome (r : Result) (x : Except Panic Result) : Result × Outcome :=
  match x with
  | .ok c => (r, .container c)
  | .error q => (r, .raised q)

/-- Lift an inspect-style method result, dropping the invocation log. -/
def inspOutcome (r : Result) (x : Except Panic (Result × List JSVal)) : Result × Outcome :=
  match x with
  | .ok c => (r, .container c.1)
  | .error q => (r, .raised q)

/-- Run one operation on a container: post-state of the receiver and
observable outcome of the call. -/
def Result.run (r : Result) : Op → Result × Outcome
  | .opMatch a b => (r, .value (r.matchArms a b))
  | .unwrap => mutOutcome r.unwrap
  | .isOk => boolOutcome r r.isOk
  | .isOkAnd fn => boolOutcome r (r.isOkAnd fn)
  | .isErr => boolOutcome r r.isErr
  | .isErrAnd fn => boolOutcome r (r.isErrAnd fn)
  | .expect msg => mutOutcome (r.expect msg)
  | .map fn => resOutcome r (r.map fn)
  | .mapOr d fn => valOutcome r (r.mapOr d fn)
  | .mapErr fn => resOutcome r (r.mapErr fn)
  | .inspect fn => inspOutcome r (r.inspect fn)
  | .inspectErr fn => inspOutcome r (r.inspectErr fn)
  | .ok => mutOutcome r.okOp
  | .err => mutOutcome r.errOp

/-- Run a sequence of operations, threading the receiver's state. -/
def Result.runSeq (r : Result) (ops : List Op) : Result :=
  ops.foldl (fun s op => (s.run op).1) r

/-- At most one of the two slots is populated. -/
def atMostOneSlot (r : Result) : Bool :=
  isNullish r.val || isNullish r.err

/-- The composite JS expression `r.map(f).ok()`: a consuming `ok()` call
made on the container returned by a mapping call. -/
def chainOk (x : Except Panic Result) : Except Panic JSVal :=
  match x with
  | .error p => .error p
  | .ok c => (c.okOp).2

/-- The composite JS expression `r.mapErr(f).err()`. -/
def chainErr (x : Except Panic Result) : Except Panic JSVal :=
  match x with
  | .error p => .error p
  | .ok c => (c.errOp).2

/-- A truthy value is not nullish. -/
theorem truthy_not_nullish (v : JSVal) (h : truthy v = true) : isNullish v = false := by
  cases v <;> simp_all [truthy, isNullish]

/-- The undefined value is falsy. -/
theorem truthy_vundef : truthy JSVal.vundef = false := rfl

/-- The null value is nullish. -/
theorem isNullish_vnull : isNullish JSVal.vnull = true := rfl

/-- Running one operation never changes the success slot of the receiver. -/
theorem run_val (r : Result) (op : Op) : (r.run op).1.val = r.val := by
  obtain ⟨v, e, c⟩ := r
  cases op <;> cases c <;>
    simp [Result.run, Result.unwrap, Result.expect, Result.isOk, Result.isOkAnd,
      Result.isErr, Result.isErrAnd, Result.map, Result.mapOr, Result.mapErr,
      Result.inspect, Result.inspectErr, Result.okOp, Result.errOp,
      Result.checkConsumed, mutOutcome, valOutcome, boolOutcome, resOutcome,
      inspOutcome, Result.matchArms] <;>
    first
      | rfl
      | (split <;> rfl)

/-- Running one operation never changes the error slot of the receiver. -/
theorem run_err (r : Result) (op : Op) : (r.run op).1.err = r.err := by
  obtain ⟨v, e, c⟩ := r
  cases op <;> cases c <;>
    simp [Result.run, Result.unwrap, Result.expect, Result.isOk, Result.isOkAnd,
      Result.isErr, Result.isErrAnd, Result.map, Result.mapOr, Result.mapErr,
      Result.inspect, Result.inspectErr, Result.okOp, Result.errOp,
      Result.checkConsumed, mutOutcome, valOutcome, boolOutcome, resOutcome,
      inspOutcome, Result.matchArms] <;>
    first
      | rfl
      | (split <;> rfl)

/-- The consumed flag after one operation: it is set exactly by the
consuming operations and is never cleared. -/
theorem run_consumed (r : Result) (op : Op) :
    (r.run op).1.consumed = (r.consumed || op.consuming) := by
  obtain ⟨v, e, c⟩ := r
  cases op <;> cases c <;>
    simp [Result.run, Result.unwrap, Result.expect, Result.isOk, Result.isOkAnd,
      Result.isErr, Result.isErrAnd, Result.map, Result.mapOr, Result.mapErr,
      Result.inspect, Result.inspectErr, Result.okOp, Result.errOp,
      Result.checkConsumed, mutOutcome, valOutcome, boolOutcome, resOutcome,
      inspOutcome, Result.matchArms, Op.consuming] <;>
    first
      | rfl
      | (split <;> rfl)

/-- On a consumed container, any operation other than `match` raises the
Panic produced by `#checkConsumed`. -/
theorem consumed_raises (r : Result) (op : Op) (hc : r.consumed = true)
    (hm : op.isMatch = false) :
    (r.run op).2 = Outcome.raised (Panic.make consumedMessage) := by
  obtain ⟨v, e, c⟩ := r
  simp only [Result.consumed] at hc
  subst hc
  cases op <;> simp [Op.isMatch] at hm ⊢ <;>
    simp [Result.run, Result.unwrap, Result.expect, Result.isOk, Result.isOkAnd,
      Result.isErr, Result.isErrAnd, Result.map, Result.mapOr, Result.mapErr,
      Result.inspect, Result.inspectErr, Result.okOp, Result.errOp,
      Result.checkConsumed, mutOutcome, valOutcome, boolOutcome, resOutcome,
      inspOutcome]

/-- Unfolding one step of a run sequence. -/
theorem runSeq_cons (r : Result) (op : Op) (ops : List Op) :
    r.runSeq (op :: ops) = ((r.run op).1).runSeq ops := rfl

/-- A run sequence never changes the success slot. -/
theorem runSeq_val (r : Result) (ops : List Op) : (r.runSeq ops).val = r.val := by
  induction ops generalizing r with
  | nil => rfl
  | cons op ops ih => rw [runSeq_cons, ih, run_val]

/-- A run sequence never changes the error slot. -/
theorem runSeq_err (r : Result) (ops : List Op) : (r.runSeq ops).err = r.err := by
  induction ops generalizing r with
  | nil => rfl
  | cons op ops ih => rw [runSeq_cons, ih, run_err]

/-- The consumed flag after a run sequence: set exactly when it started
set or some operation of the sequence is consuming. -/
theorem runSeq_consumed (r : Result) (ops : List Op) :
    (r.runSeq ops).consumed = (r.consumed || ops.any Op.consuming) := by
  induction ops generalizing r with
  | nil => simp [Result.runSeq]
  | cons op ops ih =>
    rw [runSeq_cons, ih, run_consumed]
    simp [List.any_cons, Bool.or_assoc]

/-- Claim C1: the spec sentence says `isOk()` / `isErr()` report variant
membership, but the code inverts them: on a fresh `Ok(42)` the method
`isOk()` returns `#err !== null`, i.e. false, and `isErr()` returns
`#err == null`, i.e. true, contradicting the methods' own doc comments
and the repository's test suite. This theorem evaluates the code at the
failing inputs. -/
theorem isOk_isErr_inverted_eval :
    (Ok (JSVal.vnum 42)).isOk = .ok false ∧
    (Ok (JSVal.vnum 42)).isErr = .ok true ∧
    (Err (JSVal.vstr "boom")).isOk = .ok true ∧
    (Err (JSVal.vstr "boom")).isErr = .ok false :=
  ⟨rfl, rfl, rfl, rfl⟩

/-- Claim C2: the spec sentence says `mapOr(defaultVal, fn)` returns
`fn(value)` when the success slot is populated and `defaultVal`
otherwise, but the code branches on the inverted `isErr()`: on a fresh
`Ok(5)` it returns the default, and on a fresh `Err("boom")` it applies
`fn` to the null success slot, contradicting `mapOr`'s own doc comment.
This theorem evaluates the code at the failing inputs. -/
theorem mapOr_inverted_eval :
    (Ok (JSVal.vnum 5)).mapOr (JSVal.vnum 0) (fun _ => JSVal.vnum 10) = .ok (JSVal.vnum 0) ∧
    (Err (JSVal.vstr "boom")).mapOr (JSVal.vnum 0) (fun _ => JSVal.vnum 10)
      = .ok (JSVal.vnum 10) :=
  ⟨rfl, rfl⟩

/-- Claim C3, counterexample: after `ok()` consumes a fresh `Ok(1)`, the
method `match` does not raise the Failure Signal — it performs no
consumed check — refuting the claim that every subsequent operation,
including `match`, raises it. -/
theorem match_after_consume_counterexample :
    (((Ok (JSVal.vnum 1)).okOp).1.consumed = true) ∧
    ((((Ok (JSVal.vnum 1)).okOp).1.run (Op.opMatch (some fun x => x) none)).2
      = Outcome.value (JSVal.vnum 1)) ∧
    ((Outcome.value (JSVal.vnum 1)).isRaised = false) :=
  ⟨rfl, rfl, rfl⟩

/-- Claim C3, amended: on a container already consumed, every subsequent
operation other than `match` raises the Failure Signal produced by
`#checkConsumed`; `match` performs no consumed check and returns its
normal arm result. -/
theorem consumed_blocks_all_but_match (r : Result) (op : Op)
    (a b : Option (JSVal → JSVal)) (hc : r.consumed = true) (hm : op.isMatch = false) :
    ((r.run op).2 = Outcome.raised (Panic.make consumedMessage)) ∧
    ((r.run (Op.opMatch a b)).2 = Outcome.value (r.matchArms a b)) :=
  ⟨consumed_raises r op hc hm, rfl⟩

/-- Witness for the amended claim C3 at the consumed container obtained
by calling `ok()` on a fresh `Ok(1)` and the subsequent operation `isErr`. -/
theorem consumed_blocks_all_but_match_witness :
    ((((Ok (JSVal.vnum 1)).okOp).1.run Op.isErr).2
      = Outcome.raised (Panic.make consumedMessage)) ∧
    ((((Ok (JSVal.vnum 1)).okOp).1.run (Op.opMatch none none)).2
      = Outcome.value (((Ok (JSVal.vnum 1)).okOp).1.matchArms none none)) :=
  consumed_blocks_all_but_match ((Ok (JSVal.vnum 1)).okOp).1 Op.isErr none none rfl rfl

/-- Claim C4, counterexample: the constructor assigns a slot only when the
argument is truthy, so `Ok(0)` stores nothing and a first `ok()` returns
null instead of 0, refuting the claim for arbitrary non-nullish values. -/
theorem ok_falsy_value_lost :
    (((Ok (JSVal.vnum 0)).okOp).2 = .ok JSVal.vnull) ∧ JSVal.vnull ≠ JSVal.vnum 0 :=
  ⟨rfl, by decide⟩

/-- Claim C4, amended: for every truthy success value v, `Ok(v).ok() == v`
and `Ok(v).err()` is null on first access; for every truthy error value e,
`Err(e).err() == e` and `Err(e).ok()` is null (each call on a fresh
container). -/
theorem constructors_roundtrip_truthy (v e : JSVal)
    (hv : truthy v = true) (he : truthy e = true) :
    (((Ok v).okOp).2 = .ok v) ∧
    (((Ok v).errOp).2 = .ok JSVal.vnull) ∧
    (((Err e).errOp).2 = .ok e) ∧
    (((Err e).okOp).2 = .ok JSVal.vnull) := by
  refine ⟨?_, ?_, ?_, ?_⟩ <;>
    simp [Ok, Err, Result.construct, Result.okOp, Result.errOp,
      Result.checkConsumed, truthy_vundef, hv, he]

/-- Witness for the amended claim C4 at `Ok(7)` and `Err("boom")`. -/
theorem constructors_roundtrip_truthy_witness :
    (((Ok (JSVal.vnum 7)).okOp).2 = .ok (JSVal.vnum 7)) ∧
    (((Ok (JSVal.vnum 7)).errOp).2 = .ok JSVal.vnull) ∧
    (((Err (JSVal.vstr "boom")).errOp).2 = .ok (JSVal.vstr "boom")) ∧
    (((Err (JSVal.vstr "boom")).okOp).2 = .ok JSVal.vnull) :=
  constructors_roundtrip_truthy (JSVal.vnum 7) (JSVal.vstr "boom") (by decide) (by decide)

/-- Claim C5, counterexample: `map` routes its output through the `Ok`
factory, whose constructor drops falsy values, so
`Ok(1).map(fun _ => 0).ok()` is null rather than 0 = f(1), refuting the
map law for arbitrary functions. -/
theorem map_falsy_output_lost :
    (chainOk ((Ok (JSVal.vnum 1)).map (fun _ => JSVal.vnum 0)) = .ok JSVal.vnull) ∧
    JSVal.vnull ≠ JSVal.vnum 0 :=
  ⟨rfl, by decide⟩

/-- Claim C5, amended: the map laws hold on fresh containers over truthy
values and truthy function outputs: `Ok(v).map(f).ok() == f(v)`,
`Err(e).map(f).err() == e`, `Err(e).mapErr(g).err() == g(e)`, and
`Ok(v).mapErr(g).ok() == v`. -/
theorem map_laws_truthy (v e : JSVal) (f g : JSVal → JSVal)
    (hv : truthy v = true) (he : truthy e = true)
    (hfv : truthy (f v) = true) (hge : truthy (g e) = true) :
    (chainOk ((Ok v).map f) = .ok (f v)) ∧
    (chainErr ((Err e).map f) = .ok e) ∧
    (chainErr ((Err e).mapErr g) = .ok (g e)) ∧
    (chainOk ((Ok v).mapErr g) = .ok v) := by
  have hv' := truthy_not_nullish v hv
  have he' := truthy_not_nullish e he
  have hfv' := truthy_not_nullish (f v) hfv
  have hge' := truthy_not_nullish (g e) hge
  refine ⟨?_, ?_, ?_, ?_⟩ <;>
    simp [Ok, Err, Result.construct, Result.map, Result.mapErr,
      Result.checkConsumed, Result.okOp, Result.errOp, chainOk, chainErr,
      truthy_vundef, isNullish_vnull, hv, he, hv', he', hfv', hge']
  · exact fun h => absurd hfv (by simp [h])
  · exact fun h => absurd hge (by simp [h])

/-- Witness for the amended claim C5 at v = 5, e = "boom" and identity
functions. -/
theorem map_laws_truthy_witness :
    (chainOk ((Ok (JSVal.vnum 5)).map (fun x => x)) = .ok ((fun x => x) (JSVal.vnum 5))) ∧
    (chainErr ((Err (JSVal.vstr "boom")).map (fun x => x)) = .ok (JSVal.vstr "boom")) ∧
    (chainErr ((Err (JSVal.vstr "boom")).mapErr (fun x => x))
      = .ok ((fun x => x) (JSVal.vstr "boom"))) ∧
    (chainOk ((Ok (JSVal.vnum 5)).mapErr (fun x => x)) = .ok (JSVal.vnum 5)) :=
  map_laws_truthy (JSVal.vnum 5) (JSVal.vstr "boom") (fun x => x) (fun x => x)
    (by decide) (by decide) (by decide) (by decide)

/-- Claim C6: on a fresh `Err(e)`, `unwrap()` raises the Failure Signal
carrying the default diagnostic message (because `unwrap` is
`expect('')` and the empty message is falsy), and `expect("custom")`
raises it carrying the message "custom". -/
theorem unwrap_expect_panic_messages (e : JSVal) :
    (((Err e).unwrap).2 = .error { message := defaultPanicMessage }) ∧
    (((Err e).expect "custom").2 = .error { message := "custom" }) :=
  ⟨rfl, rfl⟩

/-- Claim C7: on a non-consumed container, `match` applies the supplied
ok arm to the success value when that value is present, otherwise applies
the supplied err arm to the error slot content (null standing for the
absent marker), otherwise returns undefined; and it never changes the
receiver's state. -/
theorem match_semantics (r : Result) (f g : JSVal → JSVal)
    (a b : Option (JSVal → JSVal)) (hc : r.consumed = false) :
    (r.matchArms (some f) (some g) = if truthy r.val then f r.val else g r.err) ∧
    (r.matchArms (some f) none = if truthy r.val then f r.val else JSVal.vundef) ∧
    (r.matchArms none (some g) = g r.err) ∧
    (r.matchArms none none = JSVal.vundef) ∧
    ((r.run (Op.opMatch a b)).1 = r) := by
  refine ⟨?_, ?_, rfl, rfl, rfl⟩ <;>
    cases h : truthy r.val <;> simp [Result.matchArms, h]

/-- Witness for claim C7 at the fresh container `Ok(3)` with only an err
arm supplied. -/
theorem match_semantics_witness :
    (Ok (JSVal.vnum 3)).matchArms none (some fun x => x)
      = (fun x => x) (Ok (JSVal.vnum 3)).err :=
  (match_semantics (Ok (JSVal.vnum 3)) (fun x => x) (fun x => x) none none rfl).2.2.1

/-- Claim C8: on a non-consumed container, `inspect` and `inspectErr`
return the original container unchanged (same value slot, error slot and
consumed flag), and the supplied function is invoked exactly once, on the
slot content, iff the matching slot is populated. -/
theorem inspect_frame (r : Result) (f g : JSVal → JSVal) (hc : r.consumed = false) :
    (r.inspect f = .ok (r, if isNullish r.val then [] else [r.val])) ∧
    (r.inspectErr g = .ok (r, if isNullish r.err then [] else [r.err])) := by
  constructor
  · cases h : isNullish r.val <;> simp [Result.inspect, Result.checkConsumed, hc, h]
  · cases h : isNullish r.err <;> simp [Result.inspectErr, Result.checkConsumed, hc, h]

/-- Witness for claim C8 at the fresh container `Ok(2)`. -/
theorem inspect_frame_witness :
    (Ok (JSVal.vnum 2)).inspect (fun x => x)
      = .ok (Ok (JSVal.vnum 2),
          if isNullish (Ok (JSVal.vnum 2)).val then [] else [(Ok (JSVal.vnum 2)).val]) :=
  (inspect_frame (Ok (JSVal.vnum 2)) (fun x => x) (fun x => x) rfl).1

/-- Claim C9: containers built by `Ok`/`Err` start with at most one slot
populated and not consumed; no sequence of operations ever changes either
slot of a container; and along any sequence the consumed flag equals its
initial value or-ed with whether some consuming operation ran — so it is
set at most once, by the first consuming operation, and never reset. -/
theorem container_invariants (v e : JSVal) (r : Result) (ops : List Op) :
    (atMostOneSlot (Ok v) = true ∧ (Ok v).consumed = false) ∧
    (atMostOneSlot (Err e) = true ∧ (Err e).consumed = false) ∧
    ((r.runSeq ops).val = r.val ∧ (r.runSeq ops).err = r.err) ∧
    ((r.runSeq ops).consumed = (r.consumed || ops.any Op.consuming)) := by
  refine ⟨⟨?_, rfl⟩, ⟨?_, rfl⟩, ⟨runSeq_val r ops, runSeq_err r ops⟩,
    runSeq_consumed r ops⟩
  · simp [atMostOneSlot, Ok, Result.construct, truthy_vundef, isNullish_vnull]
  · simp [atMostOneSlot, Err, Result.construct, truthy_vundef, isNullish_vnull]

/-- Claim C10, counterexample: after a failed `unwrap()` on a fresh
`Err("boom")`, the operation `match` does not raise the Failure Signal —
it even still hands the contained error to the err arm — refuting the
claim that every subsequent operation raises it. -/
theorem match_after_failed_unwrap_counterexample :
    ((((Err (JSVal.vstr "boom")).unwrap).1.run
        (Op.opMatch none (some fun x => x))).2
      = Outcome.value (JSVal.vstr "boom")) ∧
    ((Outcome.value (JSVal.vstr "boom")).isRaised = false) :=
  ⟨rfl, rfl⟩

/-- Claim C10, amended: on a non-consumed container whose success slot is
absent, `expect(msg)` (hence `unwrap()`, which is `expect('')`) marks the
container consumed before raising the Failure Signal carrying `msg`, so
the failed call still retires the container: every subsequent operation
except `match` raises the Failure Signal, and in particular `err()` can
no longer retrieve the contained error after a failed unwrap. -/
theorem failed_expect_retires (r : Result) (msg : String) (op : Op)
    (hc : r.consumed = false) (hv : isNullish r.val = true) (hm : op.isMatch = false) :
    (r.unwrap = r.expect "") ∧
    ((r.expect msg).1 = { r with consumed := true }) ∧
    ((r.expect msg).2 = .error (Panic.make msg)) ∧
    (((r.expect msg).1.run op).2 = Outcome.raised (Panic.make consumedMessage)) ∧
    (((r.expect msg).1.errOp).2 = .error (Panic.make consumedMessage)) := by
  have h1 : r.expect msg = ({ r with consumed := true }, .error (Panic.make msg)) := by
    simp [Result.expect, Result.checkConsumed, hc, hv]
  refine ⟨rfl, ?_, ?_, ?_, ?_⟩
  · rw [h1]
  · rw [h1]
  · rw [h1]; exact consumed_raises _ op rfl hm
  · rw [h1]; simp [Result.errOp, Result.checkConsumed]

/-- Witness for the amended claim C10: the container retired by a failed
`unwrap()` on `Err("boom")` raises the Failure Signal on a subsequent
`err()` call. -/
theorem failed_expect_retires_witness :
    (((Err (JSVal.vstr "boom")).expect "").1.run Op.err).2
      = Outcome.raised (Panic.make consumedMessage) :=
  (failed_expect_retires (Err (JSVal.vstr "boom")) "" Op.err rfl rfl rfl).2.2.2.1
